import Mathlib

/-!
Verification of the cvelib CVE Services client (`cvelib/cve_api.py`).

The development shallowly embeds the record-normalization, validation,
submission, pagination and liveness-probe logic of `CveApi` / `CveRecord`.
JSON values are modelled by the inductive `JVal`; Python dicts are ordered
association lists (insertion order preserved, assignment replaces in place,
matching CPython dict semantics for the unique-key dicts this code handles).
The two external collaborators are made explicit parameters:

* the HTTP layer (`requests.request` + `raise_for_status` + `.json()`)
  becomes `Env.respond : Request → Except RequestException JVal`, and every
  operation additionally returns the ordered list of requests it issued;
* the JSON-schema checker (`jsonschema.Draft7Validator(schema).iter_errors`)
  becomes `Env.iterErrors : SchemaId → JObj → List VError`, producing the
  violations in schema-traversal order exactly as the library would.

Python's `sorted(..., key=lambda e: e.message)` is modelled by a stable
insertion sort under the code-point lexicographic order `strLe`, matching
CPython's stable sort under its string comparison.
-/

/-- A JSON value as produced by `json.load` / `response.json()`. -/
inductive JVal where
  | str (s : String)
  | num (n : Int)
  | bool (b : Bool)
  | null
  | arr (elems : List JVal)
  | obj (fields : List (String × JVal))

/-- A Python dict with string keys: an association list in insertion order. -/
abbrev JObj := List (String × JVal)

/-- Python `d.get(k)` / `k in d`: first (unique) binding of the key. -/
def jGet : JObj → String → Option JVal
  | [], _ => none
  | (k, v) :: rest, key => if k = key then some v else jGet rest key

/-- Python `d.get(k, default)`. -/
def jGetD (o : JObj) (k : String) (d : JVal) : JVal :=
  (jGet o k).getD d

/-- Python `d[k] = v`: replace the binding in place, else append. -/
def dictSet : JObj → String → JVal → JObj
  | [], k, v => [(k, v)]
  | (k', v') :: rest, k, v =>
    if k' = k then (k, v) :: rest else (k', v') :: dictSet rest k v

theorem jGet_dictSet_self (o : JObj) (k : String) (v : JVal) :
    jGet (dictSet o k v) k = some v := by
  induction o with
  | nil => simp [dictSet, jGet]
  | cons p rest ih =>
    obtain ⟨k', v'⟩ := p
    by_cases h : k' = k
    · simp [dictSet, h, jGet]
    · simp [dictSet, h, jGet, ih]

theorem jGet_dictSet_other (o : JObj) (k k' : String) (v : JVal) (h : k' ≠ k) :
    jGet (dictSet o k v) k' = jGet o k' := by
  have hk : ¬ k = k' := fun hh => h hh.symm
  induction o with
  | nil => simp [dictSet, jGet, hk]
  | cons p rest ih =>
    obtain ⟨k₀, v₀⟩ := p
    by_cases h0 : k₀ = k
    · subst h0
      simp [dictSet, jGet, hk]
    · simp [dictSet, h0, jGet, ih]

/-- Code-point lexicographic comparison of character lists, the order CPython
uses to compare strings. -/
def charListLe : List Char → List Char → Bool
  | [], _ => true
  | _ :: _, [] => false
  | a :: as, b :: bs =>
    if a.toNat < b.toNat then true
    else if b.toNat < a.toNat then false
    else charListLe as bs

/-- Python string `<=`: code-point lexicographic order. -/
def strLe (a b : String) : Bool :=
  charListLe a.data b.data

theorem charListLe_total (a b : List Char) :
    charListLe a b = true ∨ charListLe b a = true := by
  induction a generalizing b with
  | nil => left; rfl
  | cons x xs ih =>
    cases b with
    | nil => right; rfl
    | cons y ys =>
      simp only [charListLe]
      rcases Nat.lt_trichotomy x.toNat y.toNat with h | h | h
      · left; simp [h]
      · have h2 : ¬ x.toNat < y.toNat := by omega
        have h3 : ¬ y.toNat < x.toNat := by omega
        rcases ih ys with h4 | h4
        · left; simp [h2, h3, h4]
        · right; simp [h2, h3, h4]
      · right; simp [h, Nat.lt_asymm h]

theorem charListLe_trans (a b c : List Char) (hab : charListLe a b = true)
    (hbc : charListLe b c = true) : charListLe a c = true := by
  induction a generalizing b c with
  | nil => rfl
  | cons x xs ih =>
    cases b with
    | nil => simp [charListLe] at hab
    | cons y ys =>
      cases c with
      | nil => simp [charListLe] at hbc
      | cons z zs =>
        simp only [charListLe] at hab hbc ⊢
        by_cases hxy : x.toNat < y.toNat
        · by_cases hyz : y.toNat < z.toNat
          · simp [show x.toNat < z.toNat by omega]
          · by_cases hzy : z.toNat < y.toNat
            · simp [hyz, hzy] at hbc
            · simp [show x.toNat < z.toNat by omega]
        · by_cases hyx : y.toNat < x.toNat
          · simp [hxy, hyx] at hab
          · have hxy' : x.toNat = y.toNat := by omega
            simp [hxy, hyx] at hab
            by_cases hyz : y.toNat < z.toNat
            · simp [show x.toNat < z.toNat by omega]
            · by_cases hzy : z.toNat < y.toNat
              · simp [hyz, hzy] at hbc
              · have hyz' : y.toNat = z.toNat := by omega
                have h1 : ¬ x.toNat < z.toNat := by omega
                have h2 : ¬ z.toNat < x.toNat := by omega
                simp [hyz, hzy] at hbc
                simp [h1, h2, ih ys zs hab hbc]

theorem charListLe_antisymm (a b : List Char) (hab : charListLe a b = true)
    (hba : charListLe b a = true) : a = b := by
  induction a generalizing b with
  | nil =>
    cases b with
    | nil => rfl
    | cons y ys => simp [charListLe] at hba
  | cons x xs ih =>
    cases b with
    | nil => simp [charListLe] at hab
    | cons y ys =>
      simp only [charListLe] at hab hba
      by_cases hxy : x.toNat < y.toNat
      · have : ¬ y.toNat < x.toNat := by omega
        simp [hxy, this] at hba
      · by_cases hyx : y.toNat < x.toNat
        · simp [hxy, hyx] at hab
        · have hv : x.toNat = y.toNat := by omega
          have hx : x = y := Char.eq_of_val_eq (UInt32.ext hv)
          simp [hxy, hyx] at hab hba
          rw [hx, ih ys hab hba]

theorem strLe_total (a b : String) : strLe a b = true ∨ strLe b a = true :=
  charListLe_total a.data b.data

theorem strLe_trans (a b c : String) (hab : strLe a b = true)
    (hbc : strLe b c = true) : strLe a c = true :=
  charListLe_trans a.data b.data c.data hab hbc

theorem strLe_antisymm (a b : String) (hab : strLe a b = true)
    (hba : strLe b a = true) : a = b := by
  cases a; cases b
  have := charListLe_antisymm _ _ hab hba
  simp only [String.data] at this
  rw [this]

/-- A violation reported by the JSON-schema checker. It corresponds to one
`jsonschema.ValidationError`: the human-readable `message` plus the location
of the violation (`absolute_path`), kept so that distinct violations may share
a message. -/
structure VError where
  message : String
  path : List String
deriving DecidableEq

/-- Comparison of violations by message text, the sort key used by
`CveRecord.validate` (`sorted(validator.iter_errors(...), key=lambda e: e.message)`). -/
def vErrLe (a b : VError) : Prop :=
  strLe a.message b.message = true

instance : DecidableRel vErrLe :=
  fun a b => instDecidableEqBool (strLe a.message b.message) true

instance : IsTotal VError vErrLe :=
  ⟨fun a b => strLe_total a.message b.message⟩

instance : IsTrans VError vErrLe :=
  ⟨fun a b c => strLe_trans a.message b.message c.message⟩

/-- The exception raised by `CveRecord.validate`:
`CveRecordValidationError(msg, errors=errors)`. -/
structure CveRecordValidationError where
  msg : String
  errors : List VError
deriving DecidableEq

/-- A `requests.exceptions.RequestException` (including the `HTTPError` raised
by `raise_for_status` on a non-2xx response); opaque to this client beyond its
identity. -/
structure RequestException where
  msg : String
deriving DecidableEq

/-- The ways an operation of this client can fail. -/
inductive ApiError where
  | validation (e : CveRecordValidationError)
  | runtimeError (msg : String)
  | keyError (key : String)
  | indexError (i : Nat)
  | pyTypeError
  | request (e : RequestException)

/-- The four bundled schema documents of `CveRecord.Schemas`. -/
inductive SchemaId where
  | CNA_PUBLISHED
  | CNA_REJECTED
  | ADP
  | V5_SCHEMA
deriving DecidableEq

/-- Display name of a schema document, standing in for the globbed file path
of `CveRecord.Schemas` (the bundled `cvelib/schemas/*.json` artifacts carry a
version suffix fixed at packaging time; only the identity of the selected
schema matters to any property proved here, the path text only feeds the
error message). -/
def schemaPathStr : SchemaId → String
  | .CNA_PUBLISHED => "CVE_JSON_cnaPublishedContainer.json"
  | .CNA_REJECTED => "CVE_JSON_cnaRejectedContainer.json"
  | .ADP => "CVE_JSON_adpContainer.json"
  | .V5_SCHEMA => "CVE_JSON_bundled.json"

/-- HTTP method of a request issued through `CveApi._http_request`. -/
inductive HttpMethod where
  | get
  | post
  | put
deriving DecidableEq

/-- One HTTP request issued by the client: method, path relative to the API
base URL, query parameters and optional JSON body. (The fixed credential
headers, base URL join and timeout of `_http_request` carry no information
relevant to any claim and are omitted.) -/
structure Request where
  method : HttpMethod
  path : String
  params : JObj
  body : Option JVal

/-- The external world: the process environment (`CVE_GENERATOR`), the
package version (`cvelib.__version__`), the JSON-schema checker, and the HTTP
transport. `respond r` is the parsed JSON body of a successful (2xx) response
to `r`, or the `RequestException` that `requests` / `raise_for_status`
raised. -/
structure Env where
  cveGenerator : Option String
  version : String
  iterErrors : SchemaId → JObj → List VError
  respond : Request → Except RequestException JVal

/-- The `CveApi` instance state: credentials and resolved base URL. -/
structure CveApi where
  username : String
  org : String
  api_key : String
  url : String

/-- Model of `CveRecord.validate`: run the schema checker, sort all collected
violations by message text (a stable sort, as CPython's `sorted`), and raise
`CveRecordValidationError` when any violation exists; the Published CNA
container schema is the default when no schema is named. -/
def CveRecord.validate (env : Env) (cve_json : JObj) (schema_path : Option SchemaId) :
    Except CveRecordValidationError Unit :=
  let sp := schema_path.getD SchemaId.CNA_PUBLISHED
  let errors := (env.iterErrors sp cve_json).insertionSort vErrLe
  if errors.isEmpty then
    Except.ok ()
  else
    let errors_str := String.intercalate "\n" (errors.map (fun e => e.message))
    Except.error
      ⟨"Schema validation against " ++ schemaPathStr sp ++ " failed:\n" ++ errors_str, errors⟩

/-- Model of `cve_json.get("dataType", "") == "CVE_RECORD"`: the record
"looks" like a full v5 record exactly when the `dataType` key holds the
string `"CVE_RECORD"`. -/
def isFullRecord (cve_json : JObj) : Bool :=
  match jGetD cve_json "dataType" (JVal.str "") with
  | JVal.str s => s == "CVE_RECORD"
  | _ => false

theorem isFullRecord_iff (c : JObj) :
    isFullRecord c = true ↔ jGet c "dataType" = some (JVal.str "CVE_RECORD") := by
  unfold isFullRecord jGetD
  cases h : jGet c "dataType" with
  | none => simp
  | some v =>
    cases v <;> simp

/-- Model of `CveApi._extract_cna_container`: on a full v5 record return its
`containers.cna` sub-object, otherwise return the input unchanged. The later
pipeline steps apply dict operations to the result, so a non-object at
`containers` or `containers.cna` is rejected here as a type error and a
missing key as a key error, where CPython raises `TypeError` / `KeyError` on
the same line. -/
def CveApi._extract_cna_container (cve_json : JObj) : Except ApiError JObj :=
  if isFullRecord cve_json then
    match jGet cve_json "containers" with
    | some (JVal.obj containers) =>
      match jGet containers "cna" with
      | some (JVal.obj cna) => Except.ok cna
      | some _ => Except.error ApiError.pyTypeError
      | none => Except.error (ApiError.keyError "cna")
    | some _ => Except.error ApiError.pyTypeError
    | none => Except.error (ApiError.keyError "containers")
  else
    Except.ok cve_json

/-- Model of `CveApi._extract_adp_container`: on a full v5 record inspect
`containers.adp`; more than one entry raises
`RuntimeError("Cannot extract ADP container if multiple are present in CVE record")`,
exactly one entry is returned, zero entries is the `[0]` index error. A
non-full record is returned unchanged. As with the CNA extractor, a
non-object where a dict is consumed downstream is a type error. -/
def CveApi._extract_adp_container (cve_json : JObj) : Except ApiError JObj :=
  if isFullRecord cve_json then
    match jGet cve_json "containers" with
    | some (JVal.obj containers) =>
      match jGet containers "adp" with
      | some (JVal.arr adp) =>
        if 1 < adp.length then
          Except.error
            (ApiError.runtimeError "Cannot extract ADP container if multiple are present in CVE record")
        else
          match adp with
          | [] => Except.error (ApiError.indexError 0)
          | JVal.obj a :: _ => Except.ok a
          | _ :: _ => Except.error ApiError.pyTypeError
      | some _ => Except.error ApiError.pyTypeError
      | none => Except.error (ApiError.keyError "adp")
    | some _ => Except.error ApiError.pyTypeError
    | none => Except.error (ApiError.keyError "containers")
  else
    Except.ok cve_json

/-- The request issued by `CveApi.show_org`: `GET org/{org}`. -/
def CveApi.orgRequest (api : CveApi) : Request :=
  ⟨HttpMethod.get, "org/" ++ api.org, [], none⟩

/-- Model of `CveApi.show_org`: `GET org/{org}`, returning the parsed
response body and the (single-request) trace. -/
def CveApi.show_org (api : CveApi) (env : Env) :
    Except RequestException JVal × List Request :=
  (env.respond (CveApi.orgRequest api), [CveApi.orgRequest api])

/-- Model of `CveApi._add_provider_metadata`: when the container lacks
`providerMetadata`, fetch the org record (`show_org()["UUID"]`, one network
call) and set `providerMetadata = {"orgId": org_id}`; otherwise return the
container untouched with no network call. The second component is the list
of HTTP requests issued. -/
def CveApi._add_provider_metadata (api : CveApi) (env : Env) (cve_json : JObj) :
    Except ApiError JObj × List Request :=
  if (jGet cve_json "providerMetadata").isSome then
    (Except.ok cve_json, [])
  else
    match CveApi.show_org api env with
    | (Except.error e, reqs) => (Except.error (ApiError.request e), reqs)
    | (Except.ok body, reqs) =>
      match body with
      | JVal.obj o =>
        match jGet o "UUID" with
        | some org_id =>
          (Except.ok (dictSet cve_json "providerMetadata" (JVal.obj [("orgId", org_id)])), reqs)
        | none => (Except.error (ApiError.keyError "UUID"), reqs)
      | _ => (Except.error ApiError.pyTypeError, reqs)

/-- Model of `CveApi._add_generator`: skip when `CVE_GENERATOR` is the `"-"`
sentinel or the container already has `x_generator`; otherwise inject
`x_generator = {"engine": g}` where `g` is the env override or the default
`"cvelib <version>"`. -/
def CveApi._add_generator (env : Env) (cve_json : JObj) : JObj :=
  let generator := env.cveGenerator
  if generator = some "-" ∨ (jGet cve_json "x_generator").isSome = true then
    cve_json
  else
    let g := generator.getD ("cvelib " ++ env.version)
    dictSet cve_json "x_generator" (JVal.obj [("engine", JVal.str g)])

/-- The fixed normalization pipeline shared verbatim by all five submission
methods of `CveApi` (`publish`, `update_published`, `publish_adp`, `reject`,
`update_rejected`): extract the container, add provider metadata, add the
generator, then (when `validateFlag` is set) validate against the
operation's schema. The second component is the list of HTTP requests
issued so far. -/
def CveApi.submissionPipeline (extract : JObj → Except ApiError JObj) (schema : SchemaId)
    (api : CveApi) (env : Env) (cve_json : JObj) (validateFlag : Bool) :
    Except ApiError JObj × List Request :=
  match extract cve_json with
  | Except.error e => (Except.error e, [])
  | Except.ok c1 =>
    match CveApi._add_provider_metadata api env c1 with
    | (Except.error e, reqs) => (Except.error e, reqs)
    | (Except.ok c2, reqs) =>
      let c3 := CveApi._add_generator env c2
      if validateFlag then
        match CveRecord.validate env c3 (some schema) with
        | Except.error e => (Except.error (ApiError.validation e), reqs)
        | Except.ok _ => (Except.ok c3, reqs)
      else
        (Except.ok c3, reqs)

/-- Issue the final submission request of an operation and decode the
response, appending the request to the trace. -/
def CveApi.submitRequest (env : Env) (reqs : List Request) (req : Request) :
    Except ApiError JVal × List Request :=
  match env.respond req with
  | Except.error e => (Except.error (ApiError.request e), reqs ++ [req])
  | Except.ok body => (Except.ok body, reqs ++ [req])

/-- Model of `CveApi.publish`: CNA pipeline with the Published CNA schema,
then `POST cve/{cve_id}/cna` with the `cnaContainer` envelope. -/
def CveApi.publish (api : CveApi) (env : Env) (cve_id : String) (cve_json : JObj)
    (validateFlag : Bool) : Except ApiError JVal × List Request :=
  match CveApi.submissionPipeline CveApi._extract_cna_container SchemaId.CNA_PUBLISHED
      api env cve_json validateFlag with
  | (Except.error e, reqs) => (Except.error e, reqs)
  | (Except.ok c3, reqs) =>
    CveApi.submitRequest env reqs
      ⟨HttpMethod.post, "cve/" ++ cve_id ++ "/cna", [], some (JVal.obj [("cnaContainer", JVal.obj c3)])⟩

/-- Model of `CveApi.update_published`: CNA pipeline with the Published CNA
schema, then `PUT cve/{cve_id}/cna`. -/
def CveApi.update_published (api : CveApi) (env : Env) (cve_id : String) (cve_json : JObj)
    (validateFlag : Bool) : Except ApiError JVal × List Request :=
  match CveApi.submissionPipeline CveApi._extract_cna_container SchemaId.CNA_PUBLISHED
      api env cve_json validateFlag with
  | (Except.error e, reqs) => (Except.error e, reqs)
  | (Except.ok c3, reqs) =>
    CveApi.submitRequest env reqs
      ⟨HttpMethod.put, "cve/" ++ cve_id ++ "/cna", [], some (JVal.obj [("cnaContainer", JVal.obj c3)])⟩

/-- Model of `CveApi.publish_adp`: ADP pipeline with the ADP schema, then
`PUT cve/{cve_id}/adp` with the `adpContainer` envelope. -/
def CveApi.publish_adp (api : CveApi) (env : Env) (cve_id : String) (cve_json : JObj)
    (validateFlag : Bool) : Except ApiError JVal × List Request :=
  match CveApi.submissionPipeline CveApi._extract_adp_container SchemaId.ADP
      api env cve_json validateFlag with
  | (Except.error e, reqs) => (Except.error e, reqs)
  | (Except.ok c3, reqs) =>
    CveApi.submitRequest env reqs
      ⟨HttpMethod.put, "cve/" ++ cve_id ++ "/adp", [], some (JVal.obj [("adpContainer", JVal.obj c3)])⟩

/-- Model of `CveApi.reject`: CNA pipeline with the Rejected CNA schema, then
`POST cve/{cve_id}/reject`. -/
def CveApi.reject (api : CveApi) (env : Env) (cve_id : String) (cve_json : JObj)
    (validateFlag : Bool) : Except ApiError JVal × List Request :=
  match CveApi.submissionPipeline CveApi._extract_cna_container SchemaId.CNA_REJECTED
      api env cve_json validateFlag with
  | (Except.error e, reqs) => (Except.error e, reqs)
  | (Except.ok c3, reqs) =>
    CveApi.submitRequest env reqs
      ⟨HttpMethod.post, "cve/" ++ cve_id ++ "/reject", [], some (JVal.obj [("cnaContainer", JVal.obj c3)])⟩

/-- Model of `CveApi.update_rejected`: CNA pipeline with the Rejected CNA
schema, then `PUT cve/{cve_id}/reject`. -/
def CveApi.update_rejected (api : CveApi) (env : Env) (cve_id : String) (cve_json : JObj)
    (validateFlag : Bool) : Except ApiError JVal × List Request :=
  match CveApi.submissionPipeline CveApi._extract_cna_container SchemaId.CNA_REJECTED
      api env cve_json validateFlag with
  | (Except.error e, reqs) => (Except.error e, reqs)
  | (Except.ok c3, reqs) =>
    CveApi.submitRequest env reqs
      ⟨HttpMethod.put, "cve/" ++ cve_id ++ "/reject", [], some (JVal.obj [("cnaContainer", JVal.obj c3)])⟩

/-- Model of `CveApi._get_paged`: repeatedly `GET path` with the current
params; each page's items (under `page_data_attr`) are yielded in order;
a present, non-null `nextPage` is written into `params["page"]` for the
next request, and a null or absent `nextPage` terminates the loop (after
JSON decoding, a JSON `null` and an absent key are both Python `None`, so
both terminate). The generator is lazy; `fuel` bounds how many pages the
consumer observes, and any result reached within the fuel is the result for
every larger fuel. Items yielded before a failing page are dropped by the
`Except`, which is sound for every property proved here (they all concern
successful paging). The second component is the list of requests issued. -/
def CveApi._get_paged (api : CveApi) (env : Env) (path : String) (page_data_attr : String)
    (params : JObj) : Nat → Except ApiError (List JVal) × List Request
  | 0 => (Except.ok [], [])
  | fuel + 1 =>
    let req : Request := ⟨HttpMethod.get, path, params, none⟩
    match env.respond req with
    | Except.error e => (Except.error (ApiError.request e), [req])
    | Except.ok page =>
      match page with
      | JVal.obj pobj =>
        match jGet pobj page_data_attr with
        | none => (Except.error (ApiError.keyError page_data_attr), [req])
        | some (JVal.arr items) =>
          match jGet pobj "nextPage" with
          | none => (Except.ok items, [req])
          | some JVal.null => (Except.ok items, [req])
          | some next_page =>
            match CveApi._get_paged api env path page_data_attr
                (dictSet params "page" next_page) fuel with
            | (Except.error e, reqs) => (Except.error e, req :: reqs)
            | (Except.ok rest, reqs) => (Except.ok (items ++ rest), req :: reqs)
        | some _ => (Except.error ApiError.pyTypeError, [req])
      | _ => (Except.error ApiError.pyTypeError, [req])

/-- The request issued by `CveApi.ping`: `GET health-check`. -/
def CveApi.healthRequest : Request :=
  ⟨HttpMethod.get, "health-check", [], none⟩

/-- Model of `CveApi.ping`: `GET health-check` inside a
`try/except RequestException`; the caught exception is returned as a value,
a success returns `None`. -/
def CveApi.ping (api : CveApi) (env : Env) :
    Option RequestException × List Request :=
  match env.respond CveApi.healthRequest with
  | Except.error exc => (some exc, [CveApi.healthRequest])
  | Except.ok _ => (none, [CveApi.healthRequest])

/-- A value stored in a Python dict at heap level: either an immutable JSON
snapshot (`val`, for leaves whose object identity no claim tracks) or a
reference to a heap-allocated dict (`ref`). This second, heap-level view of
the same source functions makes the CPython object identities explicit that
the pure `JObj` embedding abstracts away. -/
inductive HVal where
  | val (v : JVal)
  | ref (a : Nat)

/-- A heap-level dict: association list of keys to heap values. -/
abbrev HObj := List (String × HVal)

/-- The heap: partial map from addresses to dict objects. -/
abbrev Heap := Nat → Option HObj

/-- Heap lookup of a key in a heap dict. -/
def hGet : HObj → String → Option HVal
  | [], _ => none
  | (k, v) :: rest, key => if k = key then some v else hGet rest key

/-- Heap-level Python `d[k] = v`. -/
def hSet : HObj → String → HVal → HObj
  | [], k, v => [(k, v)]
  | (k', v') :: rest, k, v =>
    if k' = k then (k, v) :: rest else (k', v') :: hSet rest k v

/-- Replace the dict stored at one address, leaving every other address
untouched (an in-place mutation of that object). -/
def Heap.set (h : Heap) (a : Nat) (o : HObj) : Heap :=
  fun x => if x = a then some o else h x

/-- Heap-level `cve_json.get("dataType", "") == "CVE_RECORD"`; a `dataType`
holding a nested dict or list compares unequal to the string, like any other
non-string value. -/
def hIsFullRecord (o : HObj) : Bool :=
  match hGet o "dataType" with
  | some (HVal.val (JVal.str s)) => s == "CVE_RECORD"
  | _ => false

/-- Heap-level `CveApi._extract_cna_container`. It takes the address of the
caller's dict and returns an address: on a full record the address of the
nested `containers.cna` dict, otherwise the input address itself. Its type
alone records that it neither mutates the heap nor allocates. -/
def CveApi.extract_cna_container_heap (h : Heap) (a : Nat) : Except ApiError Nat :=
  match h a with
  | none => Except.error ApiError.pyTypeError
  | some o =>
    if hIsFullRecord o then
      match hGet o "containers" with
      | some (HVal.ref ca) =>
        match h ca with
        | none => Except.error ApiError.pyTypeError
        | some co =>
          match hGet co "cna" with
          | some (HVal.ref b) => Except.ok b
          | some (HVal.val _) => Except.error ApiError.pyTypeError
          | none => Except.error (ApiError.keyError "cna")
      | some (HVal.val _) => Except.error ApiError.pyTypeError
      | none => Except.error (ApiError.keyError "containers")
    else
      Except.ok a

/-- Heap-level `CveApi._add_provider_metadata`: `cve_json["providerMetadata"] = ...`
mutates the dict at the given address in place (the injected metadata dict
itself is a fresh leaf whose identity no claim tracks), and the same address
is handed back, as the Python method returns its argument. -/
def CveApi.add_provider_metadata_heap (api : CveApi) (env : Env) (h : Heap) (a : Nat) :
    Except ApiError Heap × List Request :=
  match h a with
  | none => (Except.error ApiError.pyTypeError, [])
  | some o =>
    if (hGet o "providerMetadata").isSome then
      (Except.ok h, [])
    else
      match CveApi.show_org api env with
      | (Except.error e, reqs) => (Except.error (ApiError.request e), reqs)
      | (Except.ok body, reqs) =>
        match body with
        | JVal.obj bo =>
          match jGet bo "UUID" with
          | some org_id =>
            (Except.ok (Heap.set h a
              (hSet o "providerMetadata" (HVal.val (JVal.obj [("orgId", org_id)])))), reqs)
          | none => (Except.error (ApiError.keyError "UUID"), reqs)
        | _ => (Except.error ApiError.pyTypeError, reqs)

/-- Heap-level `CveApi._add_generator`: when a generator value is to be
injected, `cve_json["x_generator"] = ...` mutates the dict at the given
address in place. -/
def CveApi.add_generator_heap (env : Env) (h : Heap) (a : Nat) : Except ApiError Heap :=
  match h a with
  | none => Except.error ApiError.pyTypeError
  | some o =>
    if env.cveGenerator = some "-" ∨ (hGet o "x_generator").isSome = true then
      Except.ok h
    else
      let g := env.cveGenerator.getD ("cvelib " ++ env.version)
      Except.ok (Heap.set h a (hSet o "x_generator" (HVal.val (JVal.obj [("engine", JVal.str g)]))))

theorem Heap.set_self (h : Heap) (a : Nat) (o : HObj) : Heap.set h a o a = some o := by
  simp [Heap.set]

theorem Heap.set_other (h : Heap) (a x : Nat) (o : HObj) (hx : x ≠ a) :
    Heap.set h a o x = h x := by
  simp [Heap.set, hx]

theorem hGet_hSet_self (o : HObj) (k : String) (v : HVal) :
    hGet (hSet o k v) k = some v := by
  induction o with
  | nil => simp [hSet, hGet]
  | cons p rest ih =>
    obtain ⟨k', v'⟩ := p
    by_cases h : k' = k
    · simp [hSet, h, hGet]
    · simp [hSet, h, hGet, ih]

theorem hGet_hSet_other (o : HObj) (k k' : String) (v : HVal) (h : k' ≠ k) :
    hGet (hSet o k v) k' = hGet o k' := by
  have hk : ¬ k = k' := fun hh => h hh.symm
  induction o with
  | nil => simp [hSet, hGet, hk]
  | cons p rest ih =>
    obtain ⟨k₀, v₀⟩ := p
    by_cases h0 : k₀ = k
    · subst h0
      simp [hSet, hGet, hk]
    · simp [hSet, h0, hGet, ih]

/-- Well-formedness of an input handed to CNA extraction: when the object is
marked as a full record, its `containers.cna` path exists, is an object, and
that nested CNA container is not itself marked as a full record (a
schema-valid CNA container has no `dataType` discriminator). -/
def CveApi.wellFormedCnaInput (x : JObj) : Prop :=
  isFullRecord x = true →
    ∃ cs cna, jGet x "containers" = some (JVal.obj cs) ∧
      jGet cs "cna" = some (JVal.obj cna) ∧ isFullRecord cna = false

/-- A concrete client instance used by the witnesses. -/
def apiX : CveApi :=
  ⟨"jdoe", "acme", "k3y", "https://cveawg.mitre.org/api/"⟩

/-- A world where every request succeeds with an org record and the schema
checker finds no violation. -/
def envOkX : Env :=
  ⟨none, "1.4.0", fun _ _ => [],
    fun _ => Except.ok (JVal.obj [("UUID", JVal.str "u-123")])⟩

/-- A world where requests succeed but the schema checker reports one
violation for every container. -/
def envFailX : Env :=
  ⟨none, "1.4.0", fun _ _ => [⟨"bad container", []⟩],
    fun _ => Except.ok (JVal.obj [("UUID", JVal.str "u-123")])⟩

/-- A world where the transport fails every request. -/
def envDownX : Env :=
  ⟨none, "1.4.0", fun _ _ => [], fun _ => Except.error ⟨"503 Server Error"⟩⟩

/-- C10: full-record detection requires the `dataType` key to hold exactly
the string `"CVE_RECORD"`; when the key is absent or holds any other value,
both extractors return the input object unchanged, with no `containers`
lookup and no error. -/
theorem c10_extract_exact_discriminator (c : JObj)
    (h : jGet c "dataType" = none ∨
      ∃ v, jGet c "dataType" = some v ∧ v ≠ JVal.str "CVE_RECORD") :
    CveApi._extract_cna_container c = Except.ok c ∧
    CveApi._extract_adp_container c = Except.ok c := by
  have hfull : isFullRecord c = false := by
    cases hb : isFullRecord c
    · rfl
    · exfalso
      have hdt := (isFullRecord_iff c).mp hb
      rcases h with h | ⟨v, hv, hne⟩
      · rw [h] at hdt
        exact Option.noConfusion hdt
      · rw [hv] at hdt
        exact hne (Option.some.inj hdt)
  constructor
  · simp [CveApi._extract_cna_container, hfull]
  · simp [CveApi._extract_adp_container, hfull]

/-- C10 witness: an object whose `dataType` is the lowercase string
`"cve_record"` is treated as a bare container by both extractors. -/
theorem c10_extract_exact_discriminator_witness :
    CveApi._extract_cna_container [("dataType", JVal.str "cve_record")] =
      Except.ok [("dataType", JVal.str "cve_record")] ∧
    CveApi._extract_adp_container [("dataType", JVal.str "cve_record")] =
      Except.ok [("dataType", JVal.str "cve_record")] :=
  c10_extract_exact_discriminator [("dataType", JVal.str "cve_record")]
    (Or.inr ⟨JVal.str "cve_record", rfl, by
      intro hv
      injection hv with hs
      exact absurd hs (by decide)⟩)

/-- C3: CNA extraction is idempotent on well-formed inputs
(`extract_cna (extract_cna x) = extract_cna x`, stated through `Except.bind`),
and an already-extracted bare CNA container is returned unchanged. -/
theorem c3_extract_cna_idempotent (x : JObj) (hwf : CveApi.wellFormedCnaInput x) :
    (CveApi._extract_cna_container x).bind CveApi._extract_cna_container =
      CveApi._extract_cna_container x ∧
    (isFullRecord x = false → CveApi._extract_cna_container x = Except.ok x) := by
  constructor
  · cases hb : isFullRecord x
    · simp [CveApi._extract_cna_container, hb, Except.bind]
    · obtain ⟨cs, cna, h1, h2, h3⟩ := hwf hb
      simp [CveApi._extract_cna_container, hb, h1, h2, h3, Except.bind]
  · intro hb
    simp [CveApi._extract_cna_container, hb]

/-- C3 witness: on a concrete full record, extraction yields the bare CNA
container and a second extraction leaves it unchanged. -/
theorem c3_extract_cna_idempotent_witness :
    (CveApi._extract_cna_container
        [("dataType", JVal.str "CVE_RECORD"),
         ("containers", JVal.obj [("cna", JVal.obj [("title", JVal.str "t")])])]).bind
      CveApi._extract_cna_container =
    CveApi._extract_cna_container
        [("dataType", JVal.str "CVE_RECORD"),
         ("containers", JVal.obj [("cna", JVal.obj [("title", JVal.str "t")])])] ∧
    CveApi._extract_cna_container [("title", JVal.str "t")] =
      Except.ok [("title", JVal.str "t")] := by
  have h := c3_extract_cna_idempotent
    [("dataType", JVal.str "CVE_RECORD"),
     ("containers", JVal.obj [("cna", JVal.obj [("title", JVal.str "t")])])]
    (fun _ => ⟨[("cna", JVal.obj [("title", JVal.str "t")])], [("title", JVal.str "t")],
      rfl, rfl, rfl⟩)
  have h2 := c3_extract_cna_idempotent [("title", JVal.str "t")] (fun hb => by
    exact absurd hb (by simp [isFullRecord, jGetD, jGet]))
  exact ⟨h.1, h2.2 rfl⟩

/-- C2: on a full record, more than one entry under `containers.adp` makes
ADP extraction fail with the multiple-containers `RuntimeError`, and the
whole `publish_adp` operation then returns that error having issued no HTTP
request; exactly one entry is returned unchanged. -/
theorem c2_adp_extraction (c : JObj) (cs : JObj) (adps : List JVal)
    (hd : jGet c "dataType" = some (JVal.str "CVE_RECORD"))
    (hc : jGet c "containers" = some (JVal.obj cs))
    (ha : jGet cs "adp" = some (JVal.arr adps)) :
    (1 < adps.length →
      CveApi._extract_adp_container c =
        Except.error (ApiError.runtimeError
          "Cannot extract ADP container if multiple are present in CVE record") ∧
      ∀ api env cve_id validateFlag,
        CveApi.publish_adp api env cve_id c validateFlag =
          (Except.error (ApiError.runtimeError
            "Cannot extract ADP container if multiple are present in CVE record"), [])) ∧
    (∀ a, adps = [JVal.obj a] → CveApi._extract_adp_container c = Except.ok a) := by
  have hfull : isFullRecord c = true := (isFullRecord_iff c).mpr hd
  constructor
  · intro hlen
    have hext : CveApi._extract_adp_container c =
        Except.error (ApiError.runtimeError
          "Cannot extract ADP container if multiple are present in CVE record") := by
      simp [CveApi._extract_adp_container, hfull, hc, ha, hlen]
    refine ⟨hext, ?_⟩
    intro api env cve_id validateFlag
    simp [CveApi.publish_adp, CveApi.submissionPipeline, hext]
  · intro a haa
    subst haa
    simp [CveApi._extract_adp_container, hfull, hc, ha]

/-- C2 witness: a record with two ADP containers fails `publish_adp` with the
multiple-containers error and an empty request trace; a record with exactly
one ADP container extracts it unchanged. -/
theorem c2_adp_extraction_witness :
    CveApi.publish_adp apiX envOkX "CVE-2024-0001"
      [("dataType", JVal.str "CVE_RECORD"),
       ("containers", JVal.obj
         [("adp", JVal.arr [JVal.obj [("title", JVal.str "a")],
                            JVal.obj [("title", JVal.str "b")]])])] true =
      (Except.error (ApiError.runtimeError
        "Cannot extract ADP container if multiple are present in CVE record"), []) ∧
    CveApi._extract_adp_container
      [("dataType", JVal.str "CVE_RECORD"),
       ("containers", JVal.obj [("adp", JVal.arr [JVal.obj [("title", JVal.str "a")]])])] =
      Except.ok [("title", JVal.str "a")] := by
  constructor
  · exact ((c2_adp_extraction
      [("dataType", JVal.str "CVE_RECORD"),
       ("containers", JVal.obj
         [("adp", JVal.arr [JVal.obj [("title", JVal.str "a")],
                            JVal.obj [("title", JVal.str "b")]])])]
      [("adp", JVal.arr [JVal.obj [("title", JVal.str "a")],
                         JVal.obj [("title", JVal.str "b")]])]
      [JVal.obj [("title", JVal.str "a")], JVal.obj [("title", JVal.str "b")]]
      rfl rfl rfl).1 (by decide)).2 apiX envOkX "CVE-2024-0001" true
  · exact (c2_adp_extraction
      [("dataType", JVal.str "CVE_RECORD"),
       ("containers", JVal.obj [("adp", JVal.arr [JVal.obj [("title", JVal.str "a")]])])]
      [("adp", JVal.arr [JVal.obj [("title", JVal.str "a")]])]
      [JVal.obj [("title", JVal.str "a")]]
      rfl rfl rfl).2 [("title", JVal.str "a")] rfl

/-- C4: the augmentation steps never overwrite caller-supplied values: a
container that already has `providerMetadata` passes through provider
metadata augmentation unchanged with no network call, and a container that
already has `x_generator` passes through generator augmentation unchanged. -/
theorem c4_augmentation_never_overwrites (api : CveApi) (env : Env) (c : JObj) :
    (∀ v, jGet c "providerMetadata" = some v →
      CveApi._add_provider_metadata api env c = (Except.ok c, [])) ∧
    (∀ v, jGet c "x_generator" = some v →
      CveApi._add_generator env c = c) := by
  constructor
  · intro v hv
    simp [CveApi._add_provider_metadata, hv]
  · intro v hv
    simp [CveApi._add_generator, hv]

/-- C4 witness: a container with `providerMetadata = {orgId: "X"}` and an
existing generator keeps both values, and no request is issued. -/
theorem c4_augmentation_never_overwrites_witness :
    CveApi._add_provider_metadata apiX envOkX
      [("providerMetadata", JVal.obj [("orgId", JVal.str "X")])] =
      (Except.ok [("providerMetadata", JVal.obj [("orgId", JVal.str "X")])], []) ∧
    CveApi._add_generator envOkX [("x_generator", JVal.obj [("engine", JVal.str "mine")])] =
      [("x_generator", JVal.obj [("engine", JVal.str "mine")])] :=
  ⟨(c4_augmentation_never_overwrites apiX envOkX
      [("providerMetadata", JVal.obj [("orgId", JVal.str "X")])]).1
      (JVal.obj [("orgId", JVal.str "X")]) rfl,
   (c4_augmentation_never_overwrites apiX envOkX
      [("x_generator", JVal.obj [("engine", JVal.str "mine")])]).2
      (JVal.obj [("engine", JVal.str "mine")]) rfl⟩

/-- C5: generator injection obeys the `CVE_GENERATOR` environment override on
a container lacking `x_generator`: the `"-"` sentinel leaves the field absent,
an unset variable injects `{engine: "cvelib <version>"}`, and any other value
injects `{engine: <override>}`. -/
theorem c5_generator_env_override (env : Env) (c : JObj)
    (habs : jGet c "x_generator" = none) :
    (env.cveGenerator = some "-" →
      CveApi._add_generator env c = c ∧
      jGet (CveApi._add_generator env c) "x_generator" = none) ∧
    (env.cveGenerator = none →
      CveApi._add_generator env c =
        dictSet c "x_generator" (JVal.obj [("engine", JVal.str ("cvelib " ++ env.version))]) ∧
      jGet (CveApi._add_generator env c) "x_generator" =
        some (JVal.obj [("engine", JVal.str ("cvelib " ++ env.version))])) ∧
    (∀ g, env.cveGenerator = some g → g ≠ "-" →
      CveApi._add_generator env c =
        dictSet c "x_generator" (JVal.obj [("engine", JVal.str g)]) ∧
      jGet (CveApi._add_generator env c) "x_generator" =
        some (JVal.obj [("engine", JVal.str g)])) := by
  refine ⟨?_, ?_, ?_⟩
  · intro hs
    have he : CveApi._add_generator env c = c := by
      simp [CveApi._add_generator, hs]
    exact ⟨he, by rw [he, habs]⟩
  · intro hn
    have he : CveApi._add_generator env c =
        dictSet c "x_generator" (JVal.obj [("engine", JVal.str ("cvelib " ++ env.version))]) := by
      simp [CveApi._add_generator, hn, habs]
    exact ⟨he, by rw [he, jGet_dictSet_self]⟩
  · intro g hg hne
    have he : CveApi._add_generator env c =
        dictSet c "x_generator" (JVal.obj [("engine", JVal.str g)]) := by
      simp [CveApi._add_generator, hg, habs, hne]
    exact ⟨he, by rw [he, jGet_dictSet_self]⟩

/-- C5 witness: on the empty container, the sentinel omits the field, the
unset variable injects the `cvelib 1.4.0` engine string, and an override
injects the override. -/
theorem c5_generator_env_override_witness :
    CveApi._add_generator ⟨some "-", "1.4.0", envOkX.iterErrors, envOkX.respond⟩ [] = [] ∧
    CveApi._add_generator envOkX [] =
      [("x_generator", JVal.obj [("engine", JVal.str "cvelib 1.4.0")])] ∧
    CveApi._add_generator ⟨some "acme-tool", "1.4.0", envOkX.iterErrors, envOkX.respond⟩ [] =
      [("x_generator", JVal.obj [("engine", JVal.str "acme-tool")])] := by
  refine ⟨((c5_generator_env_override
      ⟨some "-", "1.4.0", envOkX.iterErrors, envOkX.respond⟩ [] rfl).1 rfl).1, ?_, ?_⟩
  · have h := ((c5_generator_env_override envOkX [] rfl).2.1 rfl).1
    rw [h]
    rfl
  · have h := ((c5_generator_env_override
      ⟨some "acme-tool", "1.4.0", envOkX.iterErrors, envOkX.respond⟩ [] rfl).2.2
      "acme-tool" rfl (by decide)).1
    rw [h]
    rfl

/-- C8: the liveness probe never raises on transport failure: a transport
exception from the health-check request is returned as `ping`'s value, and a
successful request yields `None`. -/
theorem c8_ping_nonraising (api : CveApi) (env : Env) :
    (∀ e, env.respond CveApi.healthRequest = Except.error e →
      CveApi.ping api env = (some e, [CveApi.healthRequest])) ∧
    (∀ v, env.respond CveApi.healthRequest = Except.ok v →
      CveApi.ping api env = (none, [CveApi.healthRequest])) := by
  constructor
  · intro e he
    simp [CveApi.ping, he]
  · intro v hv
    simp [CveApi.ping, hv]

/-- C8 witness: with the transport failing, `ping` returns the captured
exception; with it succeeding, `ping` returns `None`. -/
theorem c8_ping_nonraising_witness :
    CveApi.ping apiX envDownX = (some ⟨"503 Server Error"⟩, [CveApi.healthRequest]) ∧
    CveApi.ping apiX envOkX = (none, [CveApi.healthRequest]) :=
  ⟨(c8_ping_nonraising apiX envDownX).1 ⟨"503 Server Error"⟩ rfl,
   (c8_ping_nonraising apiX envOkX).2 (JVal.obj [("UUID", JVal.str "u-123")]) rfl⟩

instance : IsAntisymm String (fun a b => strLe a b = true) :=
  ⟨strLe_antisymm⟩

/-- The violation-message list observed from a validation outcome: empty on
success, the raised error's ordered messages on failure. -/
def validationMessages : Except CveRecordValidationError Unit → List String
  | Except.ok _ => []
  | Except.error e => e.errors.map VError.message

theorem validate_messages_eq (env : Env) (c : JObj) (sp : SchemaId) :
    validationMessages (CveRecord.validate env c (some sp)) =
      ((env.iterErrors sp c).insertionSort vErrLe).map VError.message := by
  unfold CveRecord.validate
  cases hE : ((env.iterErrors sp c).insertionSort vErrLe).isEmpty
  · simp [hE, validationMessages]
  · rw [List.isEmpty_iff] at hE
    simp [hE, validationMessages]

theorem sorted_map_message (l : List VError) :
    ((l.insertionSort vErrLe).map VError.message).Pairwise (fun a b => strLe a b = true) :=
  List.Pairwise.map VError.message (fun _ _ h => h) (List.sorted_insertionSort vErrLe l)

theorem sortErrs_messages_perm_invariant (l₁ l₂ : List VError) (hp : List.Perm l₁ l₂) :
    (l₁.insertionSort vErrLe).map VError.message =
      (l₂.insertionSort vErrLe).map VError.message := by
  have hperm : List.Perm ((l₁.insertionSort vErrLe).map VError.message)
      ((l₂.insertionSort vErrLe).map VError.message) :=
    ((List.perm_insertionSort vErrLe l₁).map _).trans
      ((hp.map _).trans ((List.perm_insertionSort vErrLe l₂).map _).symm)
  exact List.eq_of_perm_of_sorted hperm (sorted_map_message l₁) (sorted_map_message l₂)

/-- C6: validation collects all violations (the raised error's list is a
permutation of everything the checker reported), sorts them by message text,
raises an error carrying the combined human-readable message and the sorted
list on one or more violations, returns normally on zero violations, defaults
to the Published CNA schema when no schema is named, and the resulting
message order is independent of the checker's traversal order. -/
theorem c6_validate_collects_and_sorts (env : Env) (c : JObj) (sp : SchemaId) :
    CveRecord.validate env c none = CveRecord.validate env c (some SchemaId.CNA_PUBLISHED) ∧
    (env.iterErrors sp c = [] → CveRecord.validate env c (some sp) = Except.ok ()) ∧
    (env.iterErrors sp c ≠ [] →
      ∃ E, CveRecord.validate env c (some sp) = Except.error E ∧
        List.Perm E.errors (env.iterErrors sp c) ∧
        E.errors.Sorted vErrLe ∧
        E.msg = "Schema validation against " ++ schemaPathStr sp ++ " failed:\n" ++
          String.intercalate "\n" (E.errors.map VError.message)) ∧
    (∀ env2 : Env, List.Perm (env2.iterErrors sp c) (env.iterErrors sp c) →
      validationMessages (CveRecord.validate env2 c (some sp)) =
        validationMessages (CveRecord.validate env c (some sp))) := by
  refine ⟨rfl, ?_, ?_, ?_⟩
  · intro hi
    simp [CveRecord.validate, hi, List.insertionSort]
  · intro hne
    have hE : ((env.iterErrors sp c).insertionSort vErrLe).isEmpty = false := by
      cases hh : ((env.iterErrors sp c).insertionSort vErrLe).isEmpty
      · rfl
      · exfalso
        rw [List.isEmpty_iff] at hh
        have hp : List.Perm (env.iterErrors sp c)
            ((env.iterErrors sp c).insertionSort vErrLe) :=
          (List.perm_insertionSort vErrLe _).symm
        rw [hh] at hp
        exact hne hp.eq_nil
    refine ⟨⟨"Schema validation against " ++ schemaPathStr sp ++ " failed:\n" ++
        String.intercalate "\n"
          (((env.iterErrors sp c).insertionSort vErrLe).map VError.message),
      (env.iterErrors sp c).insertionSort vErrLe⟩, ?_, ?_, ?_, ?_⟩
    · simp [CveRecord.validate, hE]
    · exact List.perm_insertionSort vErrLe _
    · exact List.sorted_insertionSort vErrLe _
    · rfl
  · intro env2 hp
    rw [validate_messages_eq, validate_messages_eq]
    exact sortErrs_messages_perm_invariant _ _ hp

/-- A world whose schema checker reports two violations, largest message
first (traversal order differing from message order). -/
def envTwoX : Env :=
  ⟨none, "1.4.0", fun _ _ => [⟨"z err", ["b"]⟩, ⟨"a err", ["a"]⟩],
    fun _ => Except.ok JVal.null⟩

/-- The same two violations reported in the opposite traversal order. -/
def envTwoSwappedX : Env :=
  ⟨none, "1.4.0", fun _ _ => [⟨"a err", ["a"]⟩, ⟨"z err", ["b"]⟩],
    fun _ => Except.ok JVal.null⟩

/-- C6 witness: two out-of-order violations produce a sorted error list, zero
violations return normally, and the opposite traversal order yields the same
message list. -/
theorem c6_validate_collects_and_sorts_witness :
    (∃ E, CveRecord.validate envTwoX [] (some SchemaId.CNA_PUBLISHED) = Except.error E ∧
      List.Perm E.errors [⟨"z err", ["b"]⟩, ⟨"a err", ["a"]⟩] ∧
      E.errors.Sorted vErrLe ∧
      E.msg = "Schema validation against CVE_JSON_cnaPublishedContainer.json failed:\n" ++
        String.intercalate "\n" (E.errors.map VError.message)) ∧
    CveRecord.validate envOkX [] (some SchemaId.CNA_PUBLISHED) = Except.ok () ∧
    validationMessages (CveRecord.validate envTwoSwappedX [] (some SchemaId.CNA_PUBLISHED)) =
      validationMessages (CveRecord.validate envTwoX [] (some SchemaId.CNA_PUBLISHED)) := by
  refine ⟨?_, ?_, ?_⟩
  · exact (c6_validate_collects_and_sorts envTwoX [] SchemaId.CNA_PUBLISHED).2.2.1
      (by simp [envTwoX])
  · exact (c6_validate_collects_and_sorts envOkX [] SchemaId.CNA_PUBLISHED).2.1 rfl
  · exact (c6_validate_collects_and_sorts envTwoX [] SchemaId.CNA_PUBLISHED).2.2.2
      envTwoSwappedX (List.Perm.swap _ _ _)

/-- One observed step of `_get_paged`: a successful page with a non-null
next-page token contributes its items and request, writes the token into
the `page` cursor, and continues with the remaining fuel. -/
theorem get_paged_step (api : CveApi) (env : Env) (path attr : String)
    (params : JObj) (fuel : Nat) (p : JObj) (items : List JVal) (tok : JVal)
    (hr : env.respond ⟨HttpMethod.get, path, params, none⟩ = Except.ok (JVal.obj p))
    (hi : jGet p attr = some (JVal.arr items))
    (hn : jGet p "nextPage" = some tok) (ht : tok ≠ JVal.null)
    (rest : List JVal) (reqs : List Request)
    (hrec : CveApi._get_paged api env path attr (dictSet params "page" tok) fuel =
      (Except.ok rest, reqs)) :
    CveApi._get_paged api env path attr params (fuel + 1) =
      (Except.ok (items ++ rest), ⟨HttpMethod.get, path, params, none⟩ :: reqs) := by
  cases tok
  case null => exact absurd rfl ht
  all_goals simp [CveApi._get_paged, hr, hi, hn, hrec]

/-- C7: pagination terminates exactly on a null (or absent) next-page token:
when the first response carries items and a non-null `nextPage` token and the
second response (queried with that token as the `page` cursor) carries items
and a null or absent token, the paged query returns the items of page 1
followed by the items of page 2 and issues exactly those two requests — the
second carrying the first response's token — for every fuel bound of at least
two observed pages (so no third request is ever issued). -/
theorem c7_pagination_two_pages (api : CveApi) (env : Env) (path attr : String)
    (params0 : JObj) (p1 : JObj) (items1 : List JVal) (tok : JVal)
    (p2 : JObj) (items2 : List JVal)
    (h1 : env.respond ⟨HttpMethod.get, path, params0, none⟩ = Except.ok (JVal.obj p1))
    (h1i : jGet p1 attr = some (JVal.arr items1))
    (h1n : jGet p1 "nextPage" = some tok)
    (htok : tok ≠ JVal.null)
    (h2 : env.respond ⟨HttpMethod.get, path, dictSet params0 "page" tok, none⟩ =
      Except.ok (JVal.obj p2))
    (h2i : jGet p2 attr = some (JVal.arr items2))
    (h2n : jGet p2 "nextPage" = none ∨ jGet p2 "nextPage" = some JVal.null) :
    ∀ fuel, 2 ≤ fuel →
      CveApi._get_paged api env path attr params0 fuel =
        (Except.ok (items1 ++ items2),
          [⟨HttpMethod.get, path, params0, none⟩,
           ⟨HttpMethod.get, path, dictSet params0 "page" tok, none⟩]) := by
  intro fuel hf
  obtain ⟨m, rfl⟩ : ∃ m, fuel = m + 1 + 1 := ⟨fuel - 2, by omega⟩
  have hpage2 : CveApi._get_paged api env path attr (dictSet params0 "page" tok) (m + 1) =
      (Except.ok items2, [⟨HttpMethod.get, path, dictSet params0 "page" tok, none⟩]) := by
    rcases h2n with h2n | h2n
    · simp [CveApi._get_paged, h2, h2i, h2n]
    · simp [CveApi._get_paged, h2, h2i, h2n]
  exact get_paged_step api env path attr params0 (m + 1) p1 items1 tok
    h1 h1i h1n htok items2 _ hpage2

/-- A transport serving a two-page `cve-id` collection: the cursorless
request gets page 1 (with `nextPage` token `2`), any request with a cursor
gets the final page (no `nextPage`). -/
def pagedRespond : Request → Except RequestException JVal :=
  fun r =>
    match r.params with
    | [] => Except.ok (JVal.obj
        [("cve_ids", JVal.arr [JVal.str "CVE-1999-0001", JVal.str "CVE-1999-0002"]),
         ("nextPage", JVal.num 2)])
    | _ => Except.ok (JVal.obj [("cve_ids", JVal.arr [JVal.str "CVE-1999-0003"])])

/-- A world with the two-page transport. -/
def envPagedX : Env :=
  ⟨none, "1.4.0", fun _ _ => [], pagedRespond⟩

/-- C7 witness: the concrete two-page collection yields the three identifiers
in order through exactly the two expected requests. -/
theorem c7_pagination_two_pages_witness :
    CveApi._get_paged apiX envPagedX "cve-id" "cve_ids" [] 2 =
      (Except.ok [JVal.str "CVE-1999-0001", JVal.str "CVE-1999-0002", JVal.str "CVE-1999-0003"],
        [⟨HttpMethod.get, "cve-id", [], none⟩,
         ⟨HttpMethod.get, "cve-id", [("page", JVal.num 2)], none⟩]) := by
  exact c7_pagination_two_pages apiX envPagedX "cve-id" "cve_ids" []
    [("cve_ids", JVal.arr [JVal.str "CVE-1999-0001", JVal.str "CVE-1999-0002"]),
     ("nextPage", JVal.num 2)]
    [JVal.str "CVE-1999-0001", JVal.str "CVE-1999-0002"]
    (JVal.num 2)
    [("cve_ids", JVal.arr [JVal.str "CVE-1999-0003"])]
    [JVal.str "CVE-1999-0003"]
    rfl rfl rfl (fun hh => JVal.noConfusion hh) rfl rfl (Or.inl rfl) 2 (by omega)

theorem validate_error_of_nonempty (env : Env) (c : JObj) (sp : SchemaId)
    (h : env.iterErrors sp c ≠ []) :
    CveRecord.validate env c (some sp) =
      Except.error
        ⟨"Schema validation against " ++ schemaPathStr sp ++ " failed:\n" ++
          String.intercalate "\n"
            (((env.iterErrors sp c).insertionSort vErrLe).map VError.message),
          (env.iterErrors sp c).insertionSort vErrLe⟩ := by
  have hE : ((env.iterErrors sp c).insertionSort vErrLe).isEmpty = false := by
    cases hh : ((env.iterErrors sp c).insertionSort vErrLe).isEmpty
    · rfl
    · exfalso
      rw [List.isEmpty_iff] at hh
      have hp : List.Perm (env.iterErrors sp c)
          ((env.iterErrors sp c).insertionSort vErrLe) :=
        (List.perm_insertionSort vErrLe _).symm
      rw [hh] at hp
      exact h hp.eq_nil
  simp [CveRecord.validate, hE]

theorem add_provider_metadata_ok_trace (api : CveApi) (env : Env) (c c2 : JObj)
    (reqs : List Request)
    (h : CveApi._add_provider_metadata api env c = (Except.ok c2, reqs)) :
    reqs = [] ∨ reqs = [CveApi.orgRequest api] := by
  by_cases hs : (jGet c "providerMetadata").isSome = true
  · have hL : CveApi._add_provider_metadata api env c = (Except.ok c, []) := by
      simp [CveApi._add_provider_metadata, hs]
    rw [hL] at h
    injection h with h1 h2
    exact Or.inl h2.symm
  · cases hr : env.respond (CveApi.orgRequest api) with
    | error e =>
      have hL : CveApi._add_provider_metadata api env c =
          (Except.error (ApiError.request e), [CveApi.orgRequest api]) := by
        simp [CveApi._add_provider_metadata, CveApi.show_org, hs, hr]
      rw [hL] at h
      injection h with h1 h2
      exact Except.noConfusion h1
    | ok body =>
      cases body with
      | obj o =>
        cases hu : jGet o "UUID" with
        | some u =>
          have hL : CveApi._add_provider_metadata api env c =
              (Except.ok (dictSet c "providerMetadata" (JVal.obj [("orgId", u)])),
                [CveApi.orgRequest api]) := by
            simp [CveApi._add_provider_metadata, CveApi.show_org, hs, hr, hu]
          rw [hL] at h
          injection h with h1 h2
          exact Or.inr h2.symm
        | none =>
          have hL : CveApi._add_provider_metadata api env c =
              (Except.error (ApiError.keyError "UUID"), [CveApi.orgRequest api]) := by
            simp [CveApi._add_provider_metadata, CveApi.show_org, hs, hr, hu]
          rw [hL] at h
          injection h with h1 h2
          exact Except.noConfusion h1
      | str s =>
        have hL : CveApi._add_provider_metadata api env c =
            (Except.error ApiError.pyTypeError, [CveApi.orgRequest api]) := by
          simp [CveApi._add_provider_metadata, CveApi.show_org, hs, hr]
        rw [hL] at h
        injection h with h1 h2
        exact Except.noConfusion h1
      | num n =>
        have hL : CveApi._add_provider_metadata api env c =
            (Except.error ApiError.pyTypeError, [CveApi.orgRequest api]) := by
          simp [CveApi._add_provider_metadata, CveApi.show_org, hs, hr]
        rw [hL] at h
        injection h with h1 h2
        exact Except.noConfusion h1
      | bool b =>
        have hL : CveApi._add_provider_metadata api env c =
            (Except.error ApiError.pyTypeError, [CveApi.orgRequest api]) := by
          simp [CveApi._add_provider_metadata, CveApi.show_org, hs, hr]
        rw [hL] at h
        injection h with h1 h2
        exact Except.noConfusion h1
      | null =>
        have hL : CveApi._add_provider_metadata api env c =
            (Except.error ApiError.pyTypeError, [CveApi.orgRequest api]) := by
          simp [CveApi._add_provider_metadata, CveApi.show_org, hs, hr]
        rw [hL] at h
        injection h with h1 h2
        exact Except.noConfusion h1
      | arr elems =>
        have hL : CveApi._add_provider_metadata api env c =
            (Except.error ApiError.pyTypeError, [CveApi.orgRequest api]) := by
          simp [CveApi._add_provider_metadata, CveApi.show_org, hs, hr]
        rw [hL] at h
        injection h with h1 h2
        exact Except.noConfusion h1

theorem submissionPipeline_validation_fails (extract : JObj → Except ApiError JObj)
    (schema : SchemaId) (api : CveApi) (env : Env) (c c1 c2 : JObj) (reqs : List Request)
    (hx : extract c = Except.ok c1)
    (hm : CveApi._add_provider_metadata api env c1 = (Except.ok c2, reqs))
    (hv : env.iterErrors schema (CveApi._add_generator env c2) ≠ []) :
    CveApi.submissionPipeline extract schema api env c true =
      (Except.error (ApiError.validation
        ⟨"Schema validation against " ++ schemaPathStr schema ++ " failed:\n" ++
          String.intercalate "\n"
            (((env.iterErrors schema (CveApi._add_generator env c2)).insertionSort
              vErrLe).map VError.message),
          (env.iterErrors schema (CveApi._add_generator env c2)).insertionSort vErrLe⟩),
        reqs) := by
  have hve := validate_error_of_nonempty env (CveApi._add_generator env c2) schema hv
  simp [CveApi.submissionPipeline, hx, hm, hve]

theorem publish_error_eq (api : CveApi) (env : Env) (cve_id : String) (c : JObj)
    (v : Bool) (e : ApiError) (reqs : List Request)
    (hp : CveApi.submissionPipeline CveApi._extract_cna_container SchemaId.CNA_PUBLISHED
      api env c v = (Except.error e, reqs)) :
    CveApi.publish api env cve_id c v = (Except.error e, reqs) := by
  simp [CveApi.publish, hp]

theorem update_published_error_eq (api : CveApi) (env : Env) (cve_id : String) (c : JObj)
    (v : Bool) (e : ApiError) (reqs : List Request)
    (hp : CveApi.submissionPipeline CveApi._extract_cna_container SchemaId.CNA_PUBLISHED
      api env c v = (Except.error e, reqs)) :
    CveApi.update_published api env cve_id c v = (Except.error e, reqs) := by
  simp [CveApi.update_published, hp]

theorem reject_error_eq (api : CveApi) (env : Env) (cve_id : String) (c : JObj)
    (v : Bool) (e : ApiError) (reqs : List Request)
    (hp : CveApi.submissionPipeline CveApi._extract_cna_container SchemaId.CNA_REJECTED
      api env c v = (Except.error e, reqs)) :
    CveApi.reject api env cve_id c v = (Except.error e, reqs) := by
  simp [CveApi.reject, hp]

theorem update_rejected_error_eq (api : CveApi) (env : Env) (cve_id : String) (c : JObj)
    (v : Bool) (e : ApiError) (reqs : List Request)
    (hp : CveApi.submissionPipeline CveApi._extract_cna_container SchemaId.CNA_REJECTED
      api env c v = (Except.error e, reqs)) :
    CveApi.update_rejected api env cve_id c v = (Except.error e, reqs) := by
  simp [CveApi.update_rejected, hp]

theorem publish_adp_error_eq (api : CveApi) (env : Env) (cve_id : String) (c : JObj)
    (v : Bool) (e : ApiError) (reqs : List Request)
    (hp : CveApi.submissionPipeline CveApi._extract_adp_container SchemaId.ADP
      api env c v = (Except.error e, reqs)) :
    CveApi.publish_adp api env cve_id c v = (Except.error e, reqs) := by
  simp [CveApi.publish_adp, hp]

/-- C1 (amended): for every submission operation invoked with validation
enabled, a schema-validation failure of the normalized container makes the
operation raise the validation error with the request trace it had
accumulated before validating — so the submission `POST`/`PUT` is never
issued — and that prior trace is at most the single provider-metadata org-id
lookup `GET` (empty exactly when the container already carried
`providerMetadata`). -/
theorem c1_validation_aborts_before_submission (api : CveApi) (env : Env)
    (cve_id : String) (c c1 c2 : JObj) (reqs : List Request)
    (hm : CveApi._add_provider_metadata api env c1 = (Except.ok c2, reqs)) :
    (CveApi._extract_cna_container c = Except.ok c1 →
      env.iterErrors SchemaId.CNA_PUBLISHED (CveApi._add_generator env c2) ≠ [] →
      (∃ e, CveApi.publish api env cve_id c true =
        (Except.error (ApiError.validation e), reqs)) ∧
      (∃ e, CveApi.update_published api env cve_id c true =
        (Except.error (ApiError.validation e), reqs))) ∧
    (CveApi._extract_cna_container c = Except.ok c1 →
      env.iterErrors SchemaId.CNA_REJECTED (CveApi._add_generator env c2) ≠ [] →
      (∃ e, CveApi.reject api env cve_id c true =
        (Except.error (ApiError.validation e), reqs)) ∧
      (∃ e, CveApi.update_rejected api env cve_id c true =
        (Except.error (ApiError.validation e), reqs))) ∧
    (CveApi._extract_adp_container c = Except.ok c1 →
      env.iterErrors SchemaId.ADP (CveApi._add_generator env c2) ≠ [] →
      ∃ e, CveApi.publish_adp api env cve_id c true =
        (Except.error (ApiError.validation e), reqs)) ∧
    (reqs = [] ∨ reqs = [CveApi.orgRequest api]) ∧
    (∀ r, r ∈ reqs → r.method = HttpMethod.get) := by
  have htrace := add_provider_metadata_ok_trace api env c1 c2 reqs hm
  refine ⟨?_, ?_, ?_, htrace, ?_⟩
  · intro hx hv
    have hp := submissionPipeline_validation_fails CveApi._extract_cna_container
      SchemaId.CNA_PUBLISHED api env c c1 c2 reqs hx hm hv
    exact ⟨⟨_, publish_error_eq api env cve_id c true _ reqs hp⟩,
      ⟨_, update_published_error_eq api env cve_id c true _ reqs hp⟩⟩
  · intro hx hv
    have hp := submissionPipeline_validation_fails CveApi._extract_cna_container
      SchemaId.CNA_REJECTED api env c c1 c2 reqs hx hm hv
    exact ⟨⟨_, reject_error_eq api env cve_id c true _ reqs hp⟩,
      ⟨_, update_rejected_error_eq api env cve_id c true _ reqs hp⟩⟩
  · intro hx hv
    have hp := submissionPipeline_validation_fails CveApi._extract_adp_container
      SchemaId.ADP api env c c1 c2 reqs hx hm hv
    exact ⟨_, publish_adp_error_eq api env cve_id c true _ reqs hp⟩
  · intro r hr
    rcases htrace with h | h
    · rw [h] at hr
      exact absurd hr (List.not_mem_nil r)
    · rw [h] at hr
      rcases List.mem_singleton.mp hr with rfl
      rfl

/-- C1 witness: a bare container that already carries `providerMetadata` but
fails validation makes `publish` raise the validation error with an empty
request trace. -/
theorem c1_validation_aborts_before_submission_witness :
    ∃ e, CveApi.publish apiX envFailX "CVE-2024-0001"
        [("providerMetadata", JVal.obj [("orgId", JVal.str "X")])] true =
      (Except.error (ApiError.validation e), []) :=
  (((c1_validation_aborts_before_submission apiX envFailX "CVE-2024-0001"
      [("providerMetadata", JVal.obj [("orgId", JVal.str "X")])]
      [("providerMetadata", JVal.obj [("orgId", JVal.str "X")])]
      [("providerMetadata", JVal.obj [("orgId", JVal.str "X")])]
      [] rfl).1 rfl (by simp [envFailX])).1)

/-- C1 counterexample to the claim as stated: a schema-invalid container
lacking `providerMetadata` makes `publish` (with validation enabled) raise a
validation error, yet a network call — the provider-metadata org-id lookup —
was performed before the failure, because `_add_provider_metadata` runs
before `CveRecord.validate` in the pipeline. -/
theorem c1_validation_network_call_counterexample :
    (∃ e, (CveApi.publish apiX envFailX "CVE-2024-0001" [] true).1 =
      Except.error (ApiError.validation e)) ∧
    (CveApi.publish apiX envFailX "CVE-2024-0001" [] true).2 = [CveApi.orgRequest apiX] ∧
    (CveApi.publish apiX envFailX "CVE-2024-0001" [] true).2 ≠ [] := by
  refine ⟨⟨⟨"Schema validation against CVE_JSON_cnaPublishedContainer.json failed:\nbad container",
    [⟨"bad container", []⟩]⟩, ?_⟩, rfl, ?_⟩
  · rfl
  · intro hh
    rw [show (CveApi.publish apiX envFailX "CVE-2024-0001" [] true).2 =
      [CveApi.orgRequest apiX] from rfl] at hh
    exact List.noConfusion hh

/-- C9: the augmentation steps mutate the caller's dict in place. At heap
level: CNA extraction of a full record returns the existing address of the
nested `containers.cna` dict (allocating and copying nothing — its type
cannot even touch the heap), the same extractor hands a bare container's own
address back, provider-metadata augmentation then rewrites the dict stored
at that address (every other address is untouched), and generator
augmentation rewrites it again — so the caller's original record, still at
its own untouched address, now reaches a container carrying the two injected
keys. -/
theorem c9_augmentation_mutates_in_place (api : CveApi) (env : Env) (h : Heap)
    (a ca b : Nat) (recObj co cnaObj : HObj) (bo : JObj) (u : JVal)
    (hra : h a = some recObj)
    (hfull : hIsFullRecord recObj = true)
    (hcs : hGet recObj "containers" = some (HVal.ref ca))
    (hco : h ca = some co)
    (hcna : hGet co "cna" = some (HVal.ref b))
    (hb : h b = some cnaObj)
    (hbare : hIsFullRecord cnaObj = false)
    (hpm : hGet cnaObj "providerMetadata" = none)
    (hxg : hGet cnaObj "x_generator" = none)
    (hgen : env.cveGenerator ≠ some "-")
    (hresp : env.respond (CveApi.orgRequest api) = Except.ok (JVal.obj bo))
    (hu : jGet bo "UUID" = some u) :
    CveApi.extract_cna_container_heap h a = Except.ok b ∧
    CveApi.extract_cna_container_heap h b = Except.ok b ∧
    (∃ h1,
      CveApi.add_provider_metadata_heap api env h b =
        (Except.ok h1, [CveApi.orgRequest api]) ∧
      h1 b = some (hSet cnaObj "providerMetadata" (HVal.val (JVal.obj [("orgId", u)]))) ∧
      (∀ x, x ≠ b → h1 x = h x) ∧
      ∃ h2 gv,
        CveApi.add_generator_heap env h1 b = Except.ok h2 ∧
        h2 b = some (hSet
          (hSet cnaObj "providerMetadata" (HVal.val (JVal.obj [("orgId", u)])))
          "x_generator" (HVal.val gv)) ∧
        (∀ x, x ≠ b → h2 x = h x) ∧
        hGet (hSet
          (hSet cnaObj "providerMetadata" (HVal.val (JVal.obj [("orgId", u)])))
          "x_generator" (HVal.val gv)) "providerMetadata" =
            some (HVal.val (JVal.obj [("orgId", u)])) ∧
        hGet (hSet
          (hSet cnaObj "providerMetadata" (HVal.val (JVal.obj [("orgId", u)])))
          "x_generator" (HVal.val gv)) "x_generator" = some (HVal.val gv)) := by
  refine ⟨?_, ?_, ?_⟩
  · simp [CveApi.extract_cna_container_heap, hra, hfull, hcs, hco, hcna]
  · simp [CveApi.extract_cna_container_heap, hb, hbare]
  · have hpm' : (hGet cnaObj "providerMetadata").isSome = false := by
      rw [hpm]
      rfl
    refine ⟨Heap.set h b (hSet cnaObj "providerMetadata"
        (HVal.val (JVal.obj [("orgId", u)]))), ?_, Heap.set_self h b _, ?_, ?_⟩
    · simp [CveApi.add_provider_metadata_heap, hb, hpm', CveApi.show_org, hresp, hu]
    · intro x hx
      exact Heap.set_other h b x _ hx
    · have hb1 : Heap.set h b (hSet cnaObj "providerMetadata"
          (HVal.val (JVal.obj [("orgId", u)]))) b =
          some (hSet cnaObj "providerMetadata" (HVal.val (JVal.obj [("orgId", u)]))) :=
        Heap.set_self h b _
      have hx1 : hGet (hSet cnaObj "providerMetadata"
          (HVal.val (JVal.obj [("orgId", u)]))) "x_generator" = none := by
        rw [hGet_hSet_other cnaObj "providerMetadata" "x_generator" _ (by decide)]
        exact hxg
      refine ⟨Heap.set (Heap.set h b (hSet cnaObj "providerMetadata"
          (HVal.val (JVal.obj [("orgId", u)])))) b
          (hSet (hSet cnaObj "providerMetadata" (HVal.val (JVal.obj [("orgId", u)])))
            "x_generator"
            (HVal.val (JVal.obj [("engine",
              JVal.str (env.cveGenerator.getD ("cvelib " ++ env.version)))]))),
        JVal.obj [("engine", JVal.str (env.cveGenerator.getD ("cvelib " ++ env.version)))],
        ?_, Heap.set_self _ b _, ?_, ?_, hGet_hSet_self _ _ _⟩
      · simp [CveApi.add_generator_heap, hb1, hgen, hx1]
      · intro x hx
        rw [Heap.set_other _ b x _ hx, Heap.set_other h b x _ hx]
      · rw [hGet_hSet_other _ "x_generator" "providerMetadata" _ (by decide)]
        exact hGet_hSet_self _ _ _

/-- A three-object heap: the caller's full record at address 0 references a
`containers` dict at address 1, which references the bare CNA container at
address 2. -/
def heapX : Heap := fun n =>
  if n = 0 then
    some [("dataType", HVal.val (JVal.str "CVE_RECORD")), ("containers", HVal.ref 1)]
  else if n = 1 then
    some [("cna", HVal.ref 2)]
  else if n = 2 then
    some [("title", HVal.val (JVal.str "t"))]
  else
    none

/-- C9 witness: on the concrete heap, extraction returns the existing address
2, augmentation rewrites the dict stored there in place with both injected
keys, and the caller's record at address 0 is untouched. -/
theorem c9_augmentation_mutates_in_place_witness :
    CveApi.extract_cna_container_heap heapX 0 = Except.ok 2 ∧
    ∃ h1,
      CveApi.add_provider_metadata_heap apiX envOkX heapX 2 =
        (Except.ok h1, [CveApi.orgRequest apiX]) ∧
      h1 2 = some [("title", HVal.val (JVal.str "t")),
        ("providerMetadata", HVal.val (JVal.obj [("orgId", JVal.str "u-123")]))] ∧
      h1 0 = heapX 0 ∧
      ∃ h2 gv,
        CveApi.add_generator_heap envOkX h1 2 = Except.ok h2 ∧
        h2 2 = some [("title", HVal.val (JVal.str "t")),
          ("providerMetadata", HVal.val (JVal.obj [("orgId", JVal.str "u-123")])),
          ("x_generator", HVal.val gv)] ∧
        h2 0 = heapX 0 := by
  obtain ⟨he, _, h1, hm, hb1, hf1, h2, gv, hg, hb2, hf2, _, _⟩ :=
    c9_augmentation_mutates_in_place apiX envOkX heapX 0 1 2
      [("dataType", HVal.val (JVal.str "CVE_RECORD")), ("containers", HVal.ref 1)]
      [("cna", HVal.ref 2)]
      [("title", HVal.val (JVal.str "t"))]
      [("UUID", JVal.str "u-123")]
      (JVal.str "u-123")
      rfl rfl rfl rfl rfl rfl rfl rfl rfl
      (fun hh => Option.noConfusion hh) rfl rfl
  exact ⟨he, h1, hm, hb1, hf1 0 (by decide), h2, gv, hg, hb2, hf2 0 (by decide)⟩
